import Mathlib

/-!
Verification of the audio-mixing pipeline of `app.py` (the `/mix-audio`
endpoint).  The planner arithmetic (total duration, fadeout point, music
loop count), the request-validation and source-resolution logic, the
staged executor with its cleanup lists, and the base64 data-URI stripping
are embedded below as executable Lean definitions translated from the
source, and the specification's claims about them are settled as theorems.
-/

namespace VideoToAudio

/-- Python `int()` applied to a nonintegral float truncates toward zero. -/
def pyInt (q : ℚ) : ℤ := if 0 ≤ q then ⌊q⌋ else ⌈q⌉

/-- `fadeout_duration = 3.0` (app.py line 528). -/
def fadeout_duration : ℚ := 3

/-- The pure data computed by the mix planner (app.py lines 529, 536, 579):
`total_duration`, the `-stream_loop` argument `loops_needed - 1`, and
`fadeout_point`. -/
structure MixPlan where
  totalDuration : ℚ
  loopCount : ℤ
  fadeoutStart : ℚ
deriving DecidableEq, Repr

/-- A float division by zero raises `ZeroDivisionError` in Python. -/
inductive PlanError
  | zeroDivision
deriving DecidableEq, Repr

/-- Mix planner, translated from app.py lines 527-536 and 579:
`total_duration = wait_music + narration_duration + fade_end_at + fadeout_duration`;
when `music_audio.duration < total_duration` the code computes
`loops_needed = int(total_duration / music_audio.duration) + 1` and passes
`loops_needed - 1` to ffmpeg's `-stream_loop`; `fadeout_point =
wait_music + narration_duration + fade_end_at`. -/
def computePlan (narration music : ℚ) (wait fade : ℤ) : Except PlanError MixPlan :=
  let total : ℚ := (wait : ℚ) + narration + (fade : ℚ) + fadeout_duration
  let fadeoutPoint : ℚ := (wait : ℚ) + narration + (fade : ℚ)
  if music < total then
    if music = 0 then .error .zeroDivision
    else .ok ⟨total, pyInt (total / music), fadeoutPoint⟩
  else .ok ⟨total, 0, fadeoutPoint⟩

/-- Duration of the music after `-stream_loop n` (the input is played
`n + 1` times in total). -/
def extendedMusicDuration (loopCount : ℤ) (music : ℚ) : ℚ :=
  ((loopCount : ℚ) + 1) * music

/-!
The `/mix-audio` request handler (app.py lines 452-662).  Strings are the
request's fields; the base64 decoder (`base64.b64decode`), the media
toolkit (MoviePy clip loads, `write_audiofile`, and the ffmpeg
subprocesses), and the probed durations are external collaborators,
modelled as oracle parameters: `decode` says whether a payload decodes,
`fails` says whether a given toolkit stage fails, and the two durations
are passed in directly.  The temp directory is a list of file names. -/

/-- Python truthiness of an optional string field (`None` and `""` are
falsy), as used by `if mix_request.audio_base64:` etc. -/
def truthy : Option String → Bool
  | none => false
  | some s => !s.isEmpty

/-- Python's `str.split(sep)` on a character separator. -/
def pySplit (sep : Char) : List Char → List (List Char)
  | [] => [[]]
  | c :: cs =>
    if c = sep then [] :: pySplit sep cs
    else
      match pySplit sep cs with
      | [] => [[c]]
      | g :: gs => (c :: g) :: gs

/-- app.py lines 481-484 (and 503-506): `base64_data =
s.split(",")[1] if "," in s else s`. -/
def extract_base64_data (s : String) : String :=
  if ',' ∈ s.data then ⟨((pySplit ',' s.data).get? 1).getD []⟩ else s

/-- Everything strictly after the first comma of a character list. -/
def afterFirstComma : List Char → List Char
  | [] => []
  | c :: cs => if c = ',' then cs else afterFirstComma cs

/-- Modelled from the spec: "the comma-delimited prefix, if present, must
be stripped before decoding" — everything up to and including the first
comma is stripped and the whole remainder is kept as the data part. -/
def spec_extract_base64_data (s : String) : String :=
  if ',' ∈ s.data then ⟨afterFirstComma s.data⟩ else s

/-- The `/mix-audio` request body (app.py lines 415-421). -/
structure AudioMixRequest where
  audio : Option String := none
  audio_base64 : Option String := none
  wait_music : ℤ := 0
  music : Option String := none
  music_base64 : Option String := none
  fade_end_at : ℤ := 0
deriving DecidableEq

/-- Which of the two sources an error refers to (the two distinct
Portuguese detail strings distinguish them in the code). -/
inductive Src
  | audio
  | music
deriving DecidableEq

/-- The toolkit invocations of the mix pipeline, in program order. -/
inductive Stage
  | loadNarration
  | loadMusic
  | loopMusic
  | reopenExtended
  | makeSilence
  | loadSilence
  | writeNoFadeout
  | applyFadeout
  | reopenFadeout
  | writeOutput
deriving DecidableEq

/-- The distinct responses `mix_audio` can produce, one per `raise` /
`return` site. `processingError none` is the ZeroDivisionError raised by
the loop computation when the music duration is zero. -/
inductive Response
  | missingInputs
  | invalidBase64 (src : Src)
  | fileNotFound (src : Src)
  | processingError (stage : Option Stage)
  | success
deriving DecidableEq

/-- HTTP status of each response (400 / 404 / 500 / 200). -/
def Response.status : Response → ℕ
  | .missingInputs => 400
  | .invalidBase64 _ => 400
  | .fileNotFound _ => 404
  | .processingError _ => 500
  | .success => 200

def narrationFile (uid : String) : String := "narration_" ++ uid ++ ".mp3"

def musicFile (uid : String) : String := "music_" ++ uid ++ ".mp3"

def outputFile (uid : String) : String := "mixed_" ++ uid ++ ".mp3"

def extendedFile (uid : String) : String := "extended_music_" ++ uid ++ ".mp3"

def silenceFile (uid : String) : String := "silence_" ++ uid ++ ".mp3"

def noFadeoutFile (uid : String) : String := "music_no_fadeout_" ++ uid ++ ".mp3"

def fadeoutFile (uid : String) : String := "music_fadeout_" ++ uid ++ ".mp3"

/-- app.py lines 460-461: the request is rejected when both forms of the
narration source or both forms of the music source are falsy. -/
def missingSources (r : AudioMixRequest) : Bool :=
  (!truthy r.audio && !truthy r.audio_base64) ||
    (!truthy r.music && !truthy r.music_base64)

/-- Resolution of one source (app.py lines 478-497 for the narration,
500-519 for the music): the base64 form is tried first; only when it is
falsy is the stored-file reference consulted. Returns the response to
raise (if any) and the resulting temp-directory contents. -/
def resolveOne (decode : String → Bool) (fs : List String)
    (b64 fileRef : Option String) (target : String) (tag : Src) :
    Option Response × List String :=
  if truthy b64 then
    if decode (extract_base64_data (b64.getD "")) then (none, target :: fs)
    else (some (.invalidBase64 tag), fs)
  else if truthy fileRef then
    if (fileRef.getD "") ∈ fs then (none, target :: fs)
    else (some (.fileNotFound tag), fs)
  else (none, fs)

/-- Input validation and source resolution (app.py lines 459-519):
the missing-sources gate, then narration resolution, then music
resolution. -/
def resolveSources (decode : String → Bool) (fs : List String)
    (r : AudioMixRequest) (uid : String) : Option Response × List String :=
  if missingSources r then (some .missingInputs, fs)
  else
    match resolveOne decode fs r.audio_base64 r.audio (narrationFile uid) .audio with
    | (some e, fs₁) => (some e, fs₁)
    | (none, fs₁) => resolveOne decode fs₁ r.music_base64 r.music (musicFile uid) .music

/-- Mutable state threaded through the pipeline: the temp directory and
the toolkit invocations attempted so far. -/
structure PipeState where
  fs : List String
  invoked : List Stage
deriving DecidableEq

/-- Run a list of toolkit stages in order; each stage is attempted, fails
according to the oracle, and on success creates its files. -/
def runStages (fails : Stage → Bool) :
    List (Stage × List String) → PipeState → Except (Stage × PipeState) PipeState
  | [], st => .ok st
  | (s, creates) :: rest, st =>
    let st' : PipeState := ⟨st.fs, st.invoked ++ [s]⟩
    if fails s then .error (s, st')
    else runStages fails rest ⟨creates ++ st'.fs, st'.invoked⟩

/-- The two MoviePy loads (app.py lines 523-524), which precede the loop
decision. -/
def phase1Stages : List (Stage × List String) :=
  [(.loadNarration, []), (.loadMusic, [])]

/-- The loop-extension stages (app.py lines 533-552): the ffmpeg
`-stream_loop` concatenation producing the extended music file, and the
reopen of that file. -/
def loopStages (uid : String) : List (Stage × List String) :=
  [(.loopMusic, [extendedFile uid]), (.reopenExtended, [])]

/-- The unconditional stages (app.py lines 560-614): silence synthesis,
silence load, the pre-fadeout render, the ffmpeg fadeout, its reload, and
the final render. -/
def tailStages (uid : String) : List (Stage × List String) :=
  [(.makeSilence, [silenceFile uid]), (.loadSilence, []),
   (.writeNoFadeout, [noFadeoutFile uid]), (.applyFadeout, [fadeoutFile uid]),
   (.reopenFadeout, []), (.writeOutput, [outputFile uid])]

/-- Which toolkit stages run, decided by the durations exactly as in
app.py line 532 (`if music_audio.duration < total_duration`); `none`
records that the loop computation will divide by zero (music duration 0,
app.py line 536). -/
def pipelinePlan (narrDur musicDur : ℚ) (r : AudioMixRequest) (uid : String) :
    Option (List (Stage × List String)) :=
  let total : ℚ :=
    (r.wait_music : ℚ) + narrDur + (r.fade_end_at : ℚ) + fadeout_duration
  if musicDur < total then
    if musicDur = 0 then none
    else some (phase1Stages ++ (loopStages uid ++ tailStages uid))
  else some (phase1Stages ++ tailStages uid)

/-- File deletion loop `if os.path.exists(p): try: os.remove(p) except:
pass` over a list of paths — total (never raises) regardless of whether
the files exist. -/
def removeFiles (names fs : List String) : List String :=
  fs.filter fun x => decide (x ∉ names)

/-- Paths removed by the error handler (app.py lines 640-660):
narration, music, output, then silence, fadeout, no-fadeout and extended
temp files. -/
def errorCleanupList (uid : String) : List String :=
  [narrationFile uid, musicFile uid, outputFile uid, silenceFile uid,
   fadeoutFile uid, noFadeoutFile uid, extendedFile uid]

/-- Paths removed on success (app.py lines 616-631): all intermediates,
but not the output file, which stays registered for `/download`. -/
def successCleanupList (uid : String) : List String :=
  [narrationFile uid, musicFile uid, silenceFile uid, noFadeoutFile uid,
   fadeoutFile uid, extendedFile uid]

/-- Final observable outcome of a `/mix-audio` request: the response, the
temp directory afterwards, and the toolkit invocations attempted. -/
structure HandlerResult where
  resp : Response
  fs : List String
  invoked : List Stage
deriving DecidableEq

/-- The mix pipeline after source resolution (app.py lines 521-662): run
the planned stages; on any failure run the error cleanup and answer 500;
on success run the success cleanup, leaving the output registered.  When
the plan is `none`, the two loads still run first, then the loop
computation raises ZeroDivisionError. -/
def mixResolved (fails : Stage → Bool)
    (planOpt : Option (List (Stage × List String)))
    (fsResolved : List String) (uid : String) : HandlerResult :=
  match planOpt with
  | none =>
    match runStages fails phase1Stages ⟨fsResolved, []⟩ with
    | .error (s, st) =>
      ⟨.processingError (some s), removeFiles (errorCleanupList uid) st.fs, st.invoked⟩
    | .ok st =>
      ⟨.processingError none, removeFiles (errorCleanupList uid) st.fs, st.invoked⟩
  | some stages =>
    match runStages fails stages ⟨fsResolved, []⟩ with
    | .error (s, st) =>
      ⟨.processingError (some s), removeFiles (errorCleanupList uid) st.fs, st.invoked⟩
    | .ok st =>
      ⟨.success, removeFiles (successCleanupList uid) st.fs, st.invoked⟩

/-- The whole `/mix-audio` handler: validation and resolution, then the
pipeline. Resolution errors are raised before any toolkit invocation. -/
def mix_audio (decode : String → Bool) (fails : Stage → Bool)
    (narrDur musicDur : ℚ) (fs : List String) (r : AudioMixRequest)
    (uid : String) : HandlerResult :=
  match resolveSources decode fs r uid with
  | (some e, fs₁) => ⟨e, fs₁, []⟩
  | (none, fs₁) => mixResolved fails (pipelinePlan narrDur musicDur r uid) fs₁ uid


section PlannerEvaluation

/-- Evaluation helper: `computePlan` fully characterised on the looping
branch, used to compute the planner on concrete inputs. -/
theorem computePlan_eq_of_lt {n m : ℚ} {w f : ℤ} (hm : m ≠ 0)
    (h : m < (w : ℚ) + n + (f : ℚ) + 3) :
    computePlan n m w f =
      .ok ⟨(w : ℚ) + n + (f : ℚ) + 3, pyInt (((w : ℚ) + n + (f : ℚ) + 3) / m),
        (w : ℚ) + n + (f : ℚ)⟩ := by
  simp only [computePlan, fadeout_duration, if_pos h, if_neg hm]

/-- Evaluation helper: `computePlan` on the no-loop branch. -/
theorem computePlan_eq_of_ge {n m : ℚ} {w f : ℤ}
    (h : ¬ m < (w : ℚ) + n + (f : ℚ) + 3) :
    computePlan n m w f =
      .ok ⟨(w : ℚ) + n + (f : ℚ) + 3, 0, (w : ℚ) + n + (f : ℚ)⟩ := by
  simp only [computePlan, fadeout_duration, if_neg h]

/-- Evaluation helper: `computePlan` when the music duration is zero and
below the total (the Python code divides by the music duration there and
raises `ZeroDivisionError`). -/
theorem computePlan_eq_error {n m : ℚ} {w f : ℤ} (hm : m = 0)
    (h : m < (w : ℚ) + n + (f : ℚ) + 3) :
    computePlan n m w f = .error .zeroDivision := by
  simp only [computePlan, fadeout_duration, if_pos h, if_pos hm]

theorem computePlan_scenario1 : computePlan 10 30 3 4 = .ok ⟨20, 0, 17⟩ := by
  have h := computePlan_eq_of_ge (n := 10) (m := 30) (w := 3) (f := 4) (by push_cast; norm_num)
  rw [h]
  norm_num

theorem computePlan_scenario2 : computePlan 40 10 0 0 = .ok ⟨43, 4, 40⟩ := by
  have h := computePlan_eq_of_lt (n := 40) (m := 10) (w := 0) (f := 0)
    (by norm_num) (by push_cast; norm_num)
  rw [h]
  have hdiv : (((0 : ℤ) : ℚ) + 40 + ((0 : ℤ) : ℚ) + 3) / 10 = 43 / 10 := by push_cast; norm_num
  rw [hdiv]
  have hfl : pyInt ((43 : ℚ) / 10) = 4 := by
    rw [pyInt, if_pos (by norm_num), Int.floor_eq_iff]
    norm_num
  rw [hfl]
  norm_num

end PlannerEvaluation

/-- C1 counterexample: at narration 4s, music 5s, wait 0, fade delay 3 the
total duration is 10 and the music (5 < 10) is looped; the code's loop
count (the `-stream_loop` argument) is `int(10/5) = 2`, while the claimed
formula `ceil(10/5) - 1` gives `1`. -/
theorem loopCount_ceil_formula_counterexample :
    (5 : ℚ) < 10 ∧ computePlan 4 5 0 3 = .ok ⟨10, 2, 7⟩ ∧
      ⌈(10 : ℚ) / 5⌉ - 1 = 1 ∧ (1 : ℤ) ≠ 2 := by
  refine ⟨by norm_num, ?_, ?_, by decide⟩
  · rw [computePlan_eq_of_lt (by norm_num) (by push_cast; norm_num)]
    have hdiv : (((0 : ℤ) : ℚ) + 4 + ((3 : ℤ) : ℚ) + 3) / 5 = ((2 : ℤ) : ℚ) := by
      push_cast; norm_num
    rw [hdiv, pyInt, if_pos (by push_cast; norm_num), Int.floor_intCast]
    norm_num
  · rw [show (10 : ℚ) / 5 = ((2 : ℤ) : ℚ) by norm_num, Int.ceil_intCast]
    norm_num

/-- C1 (corrected): for `musicDuration > 0`, the planned loop count equals
`floor(totalDuration / musicDuration)` when `musicDuration < totalDuration`
(this agrees with `ceil(totalDuration / musicDuration) - 1` except when the
music duration exactly divides the total, where the code loops once more
than the claimed formula), and equals `0` when
`musicDuration ≥ totalDuration`. -/
theorem loopCount_floor (n m : ℚ) (w f : ℤ) (hm : 0 < m) :
    (m < (w : ℚ) + n + (f : ℚ) + 3 →
      computePlan n m w f =
        .ok ⟨(w : ℚ) + n + (f : ℚ) + 3, ⌊((w : ℚ) + n + (f : ℚ) + 3) / m⌋,
          (w : ℚ) + n + (f : ℚ)⟩) ∧
    ((w : ℚ) + n + (f : ℚ) + 3 ≤ m →
      computePlan n m w f =
        .ok ⟨(w : ℚ) + n + (f : ℚ) + 3, 0, (w : ℚ) + n + (f : ℚ)⟩) ∧
    (m < (w : ℚ) + n + (f : ℚ) + 3 →
      (∀ k : ℤ, (w : ℚ) + n + (f : ℚ) + 3 ≠ (k : ℚ) * m) →
      ⌊((w : ℚ) + n + (f : ℚ) + 3) / m⌋ = ⌈((w : ℚ) + n + (f : ℚ) + 3) / m⌉ - 1) := by
  refine ⟨?_, ?_, ?_⟩
  · intro h
    rw [computePlan_eq_of_lt hm.ne' h, pyInt,
      if_pos (div_pos (lt_trans hm h) hm).le]
  · intro h
    exact computePlan_eq_of_ge (not_lt.mpr h)
  · intro h hk
    set x : ℚ := ((w : ℚ) + n + (f : ℚ) + 3) / m with hx
    have hne : ((⌊x⌋ : ℚ)) ≠ x := by
      intro hfl
      apply hk ⌊x⌋
      calc (w : ℚ) + n + (f : ℚ) + 3 = x * m := (div_mul_cancel₀ _ hm.ne').symm
        _ = (⌊x⌋ : ℚ) * m := by rw [hfl]
    have h1 : (⌊x⌋ : ℚ) < x := lt_of_le_of_ne (Int.floor_le x) hne
    have h2 : ⌊x⌋ < ⌈x⌉ := by
      have hc := lt_of_lt_of_le h1 (Int.le_ceil x)
      exact_mod_cast hc
    have h3 : ⌈x⌉ ≤ ⌊x⌋ + 1 := by
      apply Int.ceil_le.mpr
      push_cast
      exact (Int.lt_floor_add_one x).le
    omega

/-- Witness for `loopCount_floor` at narration 4, music 5, wait 0, fade 3. -/
theorem loopCount_floor_witness :
    (0 : ℚ) < 5 ∧ (5 : ℚ) < ((0 : ℤ) : ℚ) + 4 + ((3 : ℤ) : ℚ) + 3 ∧
      computePlan 4 5 0 3 =
        .ok ⟨((0 : ℤ) : ℚ) + 4 + ((3 : ℤ) : ℚ) + 3,
          ⌊(((0 : ℤ) : ℚ) + 4 + ((3 : ℤ) : ℚ) + 3) / 5⌋,
          ((0 : ℤ) : ℚ) + 4 + ((3 : ℤ) : ℚ)⟩ := by
  refine ⟨by norm_num, by push_cast; norm_num, ?_⟩
  exact (loopCount_floor 4 5 0 3 (by norm_num)).1 (by push_cast; norm_num)

/-- C2 (confirmed): every plan the code produces has
`totalDuration = waitBeforeMusic + narrationDuration + fadeStartDelay + 3`. -/
theorem totalDuration_formula (n m : ℚ) (w f : ℤ) (p : MixPlan)
    (h : computePlan n m w f = .ok p) :
    p.totalDuration = (w : ℚ) + n + (f : ℚ) + 3 := by
  by_cases hlt : m < (w : ℚ) + n + (f : ℚ) + 3
  · by_cases hm : m = 0
    · rw [computePlan_eq_error hm hlt] at h; cases h
    · rw [computePlan_eq_of_lt hm hlt] at h; cases h; rfl
  · rw [computePlan_eq_of_ge hlt] at h; cases h; rfl

/-- Witness for `totalDuration_formula`: narration 10s, wait 3, fade 4,
music 30s gives total duration 20 = 3 + 10 + 4 + 3. -/
theorem totalDuration_formula_witness :
    computePlan 10 30 3 4 = .ok ⟨20, 0, 17⟩ ∧
      (⟨20, 0, 17⟩ : MixPlan).totalDuration = ((3 : ℤ) : ℚ) + 10 + ((4 : ℤ) : ℚ) + 3 :=
  ⟨computePlan_scenario1, totalDuration_formula 10 30 3 4 _ computePlan_scenario1⟩

/-- C3 counterexample: the code performs no `InvalidAudioAsset` validation.
With narration duration `-1` (and music 5s, wait 0, fade 0) a plan is
produced without any error, with a negative fadeout start. -/
theorem invalid_asset_validation_counterexample :
    (-1 : ℚ) < 0 ∧ computePlan (-1) 5 0 0 = .ok ⟨2, 0, -1⟩ := by
  refine ⟨by norm_num, ?_⟩
  rw [computePlan_eq_of_ge (by push_cast; norm_num)]
  norm_num

/-- C3 (corrected): there is no `InvalidAudioAsset` validation.  When the
music duration is `0` and below the total, the loop computation divides by
zero, which in Python raises `ZeroDivisionError` (caught and surfaced as a
generic 500 processing error); for any nonzero music duration — including
negative narration durations — a plan is produced without error. -/
theorem degenerate_inputs_behavior (n m : ℚ) (w f : ℤ) :
    (m = 0 → m < (w : ℚ) + n + (f : ℚ) + 3 →
      computePlan n m w f = .error .zeroDivision) ∧
    (m ≠ 0 → ∃ p : MixPlan, computePlan n m w f = .ok p) := by
  constructor
  · exact fun hm h => computePlan_eq_error hm h
  · intro hm
    by_cases hlt : m < (w : ℚ) + n + (f : ℚ) + 3
    · exact ⟨_, computePlan_eq_of_lt hm hlt⟩
    · exact ⟨_, computePlan_eq_of_ge hlt⟩

/-- Witness for `degenerate_inputs_behavior`. -/
theorem degenerate_inputs_behavior_witness :
    computePlan 1 0 0 0 = .error .zeroDivision ∧
      ∃ p : MixPlan, computePlan (-2) 5 0 0 = .ok p := by
  constructor
  · exact (degenerate_inputs_behavior 1 0 0 0).1 rfl (by push_cast; norm_num)
  · exact (degenerate_inputs_behavior (-2) 5 0 0).2 (by norm_num)

/-- C4 (confirmed): every plan has
`fadeoutStart = waitBeforeMusic + narrationDuration + fadeStartDelay`, and
`fadeoutStart + fadeoutDuration ≤ totalDuration` (in fact with equality). -/
theorem fadeoutStart_formula (n m : ℚ) (w f : ℤ) (p : MixPlan)
    (h : computePlan n m w f = .ok p) :
    p.fadeoutStart = (w : ℚ) + n + (f : ℚ) ∧
      p.fadeoutStart + fadeout_duration ≤ p.totalDuration := by
  by_cases hlt : m < (w : ℚ) + n + (f : ℚ) + 3
  · by_cases hm : m = 0
    · rw [computePlan_eq_error hm hlt] at h; cases h
    · rw [computePlan_eq_of_lt hm hlt] at h; cases h; exact ⟨rfl, le_of_eq rfl⟩
  · rw [computePlan_eq_of_ge hlt] at h; cases h; exact ⟨rfl, le_of_eq rfl⟩

/-- Witness for `fadeoutStart_formula`: scenario 1 has fadeout start
17 = 3 + 10 + 4 and 17 + 3 ≤ 20. -/
theorem fadeoutStart_formula_witness :
    computePlan 10 30 3 4 = .ok ⟨20, 0, 17⟩ ∧
      (⟨20, 0, 17⟩ : MixPlan).fadeoutStart = ((3 : ℤ) : ℚ) + 10 + ((4 : ℤ) : ℚ) ∧
      (⟨20, 0, 17⟩ : MixPlan).fadeoutStart + fadeout_duration ≤
        (⟨20, 0, 17⟩ : MixPlan).totalDuration := by
  have h := fadeoutStart_formula 10 30 3 4 _ computePlan_scenario1
  exact ⟨computePlan_scenario1, h.1, h.2⟩

/-- C5 (confirmed): whenever `0 < musicDuration < totalDuration`, the
extended music produced by looping (`(loopCount + 1) ×` the original music
duration) is at least `totalDuration`, so there is always enough material
to trim. -/
theorem extendedMusic_sufficient (n m : ℚ) (w f : ℤ) (p : MixPlan)
    (hm : 0 < m) (h : computePlan n m w f = .ok p)
    (hlt : m < p.totalDuration) :
    p.totalDuration ≤ extendedMusicDuration p.loopCount m := by
  by_cases hlt2 : m < (w : ℚ) + n + (f : ℚ) + 3
  · rw [computePlan_eq_of_lt hm.ne' hlt2] at h; cases h
    dsimp only
    have hdiv : 0 ≤ ((w : ℚ) + n + (f : ℚ) + 3) / m :=
      (div_pos (lt_trans hm hlt2) hm).le
    rw [pyInt, if_pos hdiv, extendedMusicDuration]
    have h1 : ((w : ℚ) + n + (f : ℚ) + 3) / m ≤
        (⌊((w : ℚ) + n + (f : ℚ) + 3) / m⌋ : ℚ) + 1 := (Int.lt_floor_add_one _).le
    calc (w : ℚ) + n + (f : ℚ) + 3
        = ((w : ℚ) + n + (f : ℚ) + 3) / m * m := (div_mul_cancel₀ _ hm.ne').symm
      _ ≤ ((⌊((w : ℚ) + n + (f : ℚ) + 3) / m⌋ : ℚ) + 1) * m :=
          mul_le_mul_of_nonneg_right h1 hm.le
  · rw [computePlan_eq_of_ge hlt2] at h; cases h
    dsimp only at hlt
    exact absurd hlt hlt2

/-- Witness for `extendedMusic_sufficient`: scenario 2 (narration 40s,
music 10s) gives total 43, loop count 4, extended music 50 ≥ 43. -/
theorem extendedMusic_sufficient_witness :
    (0 : ℚ) < 10 ∧ computePlan 40 10 0 0 = .ok ⟨43, 4, 40⟩ ∧
      (10 : ℚ) < 43 ∧ (43 : ℚ) ≤ extendedMusicDuration 4 10 := by
  refine ⟨by norm_num, computePlan_scenario2, by norm_num, ?_⟩
  have hlt : (10 : ℚ) < (⟨43, 4, 40⟩ : MixPlan).totalDuration := by
    show (10 : ℚ) < 43
    norm_num
  exact extendedMusic_sufficient 40 10 0 0 ⟨43, 4, 40⟩ (by norm_num)
    computePlan_scenario2 hlt

section HandlerEvaluation

variable {d : String → Bool} {fl : Stage → Bool} {nd md : ℚ}
variable {fs fs₁ : List String} {r : AudioMixRequest} {uid : String}
variable {b64 fileRef : Option String} {t : String} {tag : Src} {e : Response}

/-- Evaluation helper: a resolution error short-circuits the handler. -/
theorem mix_audio_of_err (h : resolveSources d fs r uid = (some e, fs₁)) :
    mix_audio d fl nd md fs r uid = ⟨e, fs₁, []⟩ := by
  unfold mix_audio
  rw [h]

/-- Evaluation helper: successful resolution hands over to the pipeline. -/
theorem mix_audio_of_ok (h : resolveSources d fs r uid = (none, fs₁)) :
    mix_audio d fl nd md fs r uid =
      mixResolved fl (pipelinePlan nd md r uid) fs₁ uid := by
  unfold mix_audio
  rw [h]

/-- Evaluation helper: the stage plan when the music is long enough. -/
theorem pipelinePlan_of_ge
    (h : ¬ md < (r.wait_music : ℚ) + nd + (r.fade_end_at : ℚ) + fadeout_duration) :
    pipelinePlan nd md r uid = some (phase1Stages ++ tailStages uid) := by
  simp only [pipelinePlan, if_neg h]

/-- Evaluation helper: the stage plan when the music must be looped. -/
theorem pipelinePlan_of_lt (hm : md ≠ 0)
    (h : md < (r.wait_music : ℚ) + nd + (r.fade_end_at : ℚ) + fadeout_duration) :
    pipelinePlan nd md r uid =
      some (phase1Stages ++ (loopStages uid ++ tailStages uid)) := by
  simp only [pipelinePlan, if_pos h, if_neg hm]

/-- Evaluation helper: a zero music duration below the total produces no
stage plan (the loop computation will divide by zero). -/
theorem pipelinePlan_zero (hm : md = 0)
    (h : md < (r.wait_music : ℚ) + nd + (r.fade_end_at : ℚ) + fadeout_duration) :
    pipelinePlan nd md r uid = none := by
  simp only [pipelinePlan, if_pos h, if_pos hm]

/-- The pipeline answers only 500 or success — never 400 or 404. -/
theorem mixResolved_resp_shape (fl : Stage → Bool)
    (po : Option (List (Stage × List String))) (fs : List String) (uid : String) :
    (∃ os, (mixResolved fl po fs uid).resp = .processingError os) ∨
      (mixResolved fl po fs uid).resp = .success := by
  cases po with
  | none =>
    rcases h : runStages fl phase1Stages ⟨fs, []⟩ with ⟨s, st⟩ | st
    · exact Or.inl ⟨some s, by simp [mixResolved, h]⟩
    · exact Or.inl ⟨none, by simp [mixResolved, h]⟩
  | some stages =>
    rcases h : runStages fl stages ⟨fs, []⟩ with ⟨s, st⟩ | st
    · exact Or.inl ⟨some s, by simp [mixResolved, h]⟩
    · exact Or.inr (by simp [mixResolved, h])

/-- The pipeline's status is 500 or 200. -/
theorem mixResolved_status (fl : Stage → Bool)
    (po : Option (List (Stage × List String))) (fs : List String) (uid : String) :
    (mixResolved fl po fs uid).resp.status = 500 ∨
      (mixResolved fl po fs uid).resp.status = 200 := by
  rcases mixResolved_resp_shape fl po fs uid with ⟨os, h⟩ | h <;>
    rw [h] <;> simp [Response.status]

/-- Evaluation helper: a truthy base64 field that decodes resolves to the
target file without consulting the file reference. -/
theorem resolveOne_b64_ok (hb : truthy b64 = true)
    (hd : d (extract_base64_data (b64.getD "")) = true) :
    resolveOne d fs b64 fileRef t tag = (none, t :: fs) := by
  simp [resolveOne, hb, hd]

/-- Evaluation helper: a truthy base64 field that fails to decode raises
the 400 for that source. -/
theorem resolveOne_b64_bad (hb : truthy b64 = true)
    (hd : d (extract_base64_data (b64.getD "")) = false) :
    resolveOne d fs b64 fileRef t tag = (some (.invalidBase64 tag), fs) := by
  simp [resolveOne, hb, hd]

/-- Evaluation helper: with no base64 form, an existing stored file is
copied to the target. -/
theorem resolveOne_file_found (hb : truthy b64 = false)
    (hf : truthy fileRef = true) (hm : (fileRef.getD "") ∈ fs) :
    resolveOne d fs b64 fileRef t tag = (none, t :: fs) := by
  simp [resolveOne, hb, hf, hm]

/-- Evaluation helper: with no base64 form, a missing stored file raises
the 404 for that source. -/
theorem resolveOne_file_missing (hb : truthy b64 = false)
    (hf : truthy fileRef = true) (hm : (fileRef.getD "") ∉ fs) :
    resolveOne d fs b64 fileRef t tag = (some (.fileNotFound tag), fs) := by
  simp [resolveOne, hb, hf, hm]

/-- Evaluation helper: with both forms falsy nothing happens (unreachable
once the gate has passed). -/
theorem resolveOne_neither (hb : truthy b64 = false) (hf : truthy fileRef = false) :
    resolveOne d fs b64 fileRef t tag = (none, fs) := by
  simp [resolveOne, hb, hf]

/-- Evaluation helper: the gate, app.py lines 459-465. -/
theorem resolveSources_missing (hm : missingSources r = true) :
    resolveSources d fs r uid = (some .missingInputs, fs) := by
  simp [resolveSources, hm]

/-- Evaluation helper: a narration-resolution error propagates. -/
theorem resolveSources_audio_err (hm : missingSources r = false)
    (h : resolveOne d fs r.audio_base64 r.audio (narrationFile uid) .audio = (some e, fs₁)) :
    resolveSources d fs r uid = (some e, fs₁) := by
  simp [resolveSources, hm, h]

/-- Evaluation helper: after narration resolution, the music is resolved
against the updated directory. -/
theorem resolveSources_music (hm : missingSources r = false)
    (h : resolveOne d fs r.audio_base64 r.audio (narrationFile uid) .audio = (none, fs₁)) :
    resolveSources d fs r uid =
      resolveOne d fs₁ r.music_base64 r.music (musicFile uid) .music := by
  simp [resolveSources, hm, h]

end HandlerEvaluation

/-- Helper for the validation-gate analysis: once the narration source has
resolved (writing `narration_<uid>.mp3`), no later outcome is a 400 with
the temp directory unchanged — the later 400 (invalid music base64) leaves
the narration file behind, and the remaining outcomes are 404, 500 or
success. -/
theorem resolved_audio_no_clean_400 (d : String → Bool) (fl : Stage → Bool)
    (nd md : ℚ) (fs : List String) (r : AudioMixRequest) (uid : String)
    (hm : missingSources r = false)
    (h1 : resolveOne d fs r.audio_base64 r.audio (narrationFile uid) .audio =
      (none, narrationFile uid :: fs)) :
    ¬ ((mix_audio d fl nd md fs r uid).resp.status = 400 ∧
        (mix_audio d fl nd md fs r uid).fs = fs) := by
  have hres := resolveSources_music hm h1
  by_cases hmb : truthy r.music_base64 = true
  · by_cases hd2 : d (extract_base64_data (r.music_base64.getD "")) = true
    · rw [mix_audio_of_ok (hres.trans (resolveOne_b64_ok hmb hd2))]
      rintro ⟨h4, -⟩
      rcases mixResolved_status fl (pipelinePlan nd md r uid)
        (musicFile uid :: (narrationFile uid :: fs)) uid with h | h <;>
        rw [h4] at h <;> norm_num at h
    · rw [mix_audio_of_err (hres.trans (resolveOne_b64_bad hmb (by simpa using hd2)))]
      rintro ⟨-, h5⟩
      exact List.cons_ne_self _ _ h5
  · have hmb' : truthy r.music_base64 = false := by simpa using hmb
    by_cases hmf : truthy r.music = true
    · by_cases hin : (r.music.getD "") ∈ narrationFile uid :: fs
      · rw [mix_audio_of_ok (hres.trans (resolveOne_file_found hmb' hmf hin))]
        rintro ⟨h4, -⟩
        rcases mixResolved_status fl (pipelinePlan nd md r uid)
          (musicFile uid :: (narrationFile uid :: fs)) uid with h | h <;>
          rw [h4] at h <;> norm_num at h
      · rw [mix_audio_of_err (hres.trans (resolveOne_file_missing hmb' hmf hin))]
        rintro ⟨h4, -⟩
        simp [Response.status] at h4
    · have hmf' : truthy r.music = false := by simpa using hmf
      have hcontra : missingSources r = true := by simp [missingSources, hmb', hmf']
      rw [hm] at hcontra
      exact Bool.noConfusion hcontra

/-- C6 counterexample: a request supplying BOTH `audio` and `audio_base64`
— hence not exactly one of that pair — is not rejected at all: with a
decoder that accepts the payload and no toolkit failures it succeeds. -/
theorem exactly_one_source_counterexample :
    truthy (some "a.mp3") = true ∧ truthy (some "QQ==") = true ∧
      (mix_audio (fun _ => true) (fun _ => false) 1 100 ["m.mp3"]
        { audio := some "a.mp3", audio_base64 := some "QQ==",
          music := some "m.mp3" } "u").resp = .success := by
  refine ⟨by decide, by decide, ?_⟩
  have hres : resolveSources (fun _ => true) ["m.mp3"]
      { audio := some "a.mp3", audio_base64 := some "QQ==",
        music := some "m.mp3" } "u" =
      (none, [musicFile "u", narrationFile "u", "m.mp3"]) := by decide
  rw [mix_audio_of_ok hres, pipelinePlan_of_ge (by push_cast; norm_num [fadeout_duration])]
  decide

/-- C6 (corrected): a `/mix-audio` request is rejected with a 400 while
the temp directory is still untouched exactly when it supplies NEITHER
form of one of the two sources (both fields absent or empty), or its
narration inline base64 is supplied but fails to decode.  Supplying both
forms of a source is not rejected; an invalid music base64 also yields a
400, but only after the narration file has been written. -/
theorem badRequest_before_io_iff (d : String → Bool) (fl : Stage → Bool)
    (nd md : ℚ) (fs : List String) (r : AudioMixRequest) (uid : String) :
    ((mix_audio d fl nd md fs r uid).resp.status = 400 ∧
      (mix_audio d fl nd md fs r uid).fs = fs) ↔
      (missingSources r = true ∨
        (truthy r.audio_base64 = true ∧
          d (extract_base64_data (r.audio_base64.getD "")) = false)) := by
  constructor
  · intro hl
    by_cases hm : missingSources r = true
    · exact Or.inl hm
    · have hm' : missingSources r = false := by simpa using hm
      by_cases hab : truthy r.audio_base64 = true
      · by_cases hd : d (extract_base64_data (r.audio_base64.getD "")) = true
        · exact absurd hl
            (resolved_audio_no_clean_400 d fl nd md fs r uid hm' (resolveOne_b64_ok hab hd))
        · exact Or.inr ⟨hab, by simpa using hd⟩
      · have hab' : truthy r.audio_base64 = false := by simpa using hab
        by_cases haf : truthy r.audio = true
        · by_cases hin : (r.audio.getD "") ∈ fs
          · exact absurd hl
              (resolved_audio_no_clean_400 d fl nd md fs r uid hm'
                (resolveOne_file_found hab' haf hin))
          · rw [mix_audio_of_err (resolveSources_audio_err hm'
              (resolveOne_file_missing hab' haf hin))] at hl
            exact absurd hl.1 (by simp [Response.status])
        · have haf' : truthy r.audio = false := by simpa using haf
          have hcontra : missingSources r = true := by simp [missingSources, hab', haf']
          rw [hm'] at hcontra
          exact Bool.noConfusion hcontra
  · rintro (hm | ⟨hab, hd⟩)
    · rw [mix_audio_of_err (resolveSources_missing hm)]
      exact ⟨rfl, rfl⟩
    · by_cases hm : missingSources r = true
      · rw [mix_audio_of_err (resolveSources_missing hm)]
        exact ⟨rfl, rfl⟩
      · have hm' : missingSources r = false := by simpa using hm
        rw [mix_audio_of_err (resolveSources_audio_err hm' (resolveOne_b64_bad hab hd))]
        exact ⟨rfl, rfl⟩

/-- Witness for `badRequest_before_io_iff`: a request missing both music
forms is rejected 400 with the temp directory untouched. -/
theorem badRequest_before_io_iff_witness :
    (mix_audio (fun _ => true) (fun _ => false) 1 100 ["x"]
      { audio := some "a.mp3" } "u").resp.status = 400 ∧
    (mix_audio (fun _ => true) (fun _ => false) 1 100 ["x"]
      { audio := some "a.mp3" } "u").fs = ["x"] :=
  (badRequest_before_io_iff (fun _ => true) (fun _ => false) 1 100 ["x"]
    { audio := some "a.mp3" } "u").mpr (Or.inl (by decide))

/-- C7 counterexample: a request whose `audio` names a nonexistent stored
file but which also carries a valid `audio_base64` is not answered 404 —
it succeeds, because the inline data wins. -/
theorem fileNotFound_counterexample :
    ("ghost.mp3" ∉ (["m.mp3"] : List String)) ∧
      (mix_audio (fun _ => true) (fun _ => false) 1 100 ["m.mp3"]
        { audio := some "ghost.mp3", audio_base64 := some "QQ==",
          music := some "m.mp3" } "u").resp = .success := by
  refine ⟨by decide, ?_⟩
  have hres : resolveSources (fun _ => true) ["m.mp3"]
      { audio := some "ghost.mp3", audio_base64 := some "QQ==",
        music := some "m.mp3" } "u" =
      (none, [musicFile "u", narrationFile "u", "m.mp3"]) := by decide
  rw [mix_audio_of_ok hres, pipelinePlan_of_ge (by push_cast; norm_num [fadeout_duration])]
  decide

/-- C7 (corrected): when the stored-file reference is the form actually
used — its base64 companion absent or empty — a nonexistent filename is
answered 404 with no toolkit invocation; for the music source this
requires the narration source to have resolved first. -/
theorem fileNotFound_resolution (d : String → Bool) (fl : Stage → Bool)
    (nd md : ℚ) (fs : List String) (r : AudioMixRequest) (uid : String) :
    (missingSources r = false → truthy r.audio_base64 = false →
      truthy r.audio = true → (r.audio.getD "") ∉ fs →
      mix_audio d fl nd md fs r uid = ⟨.fileNotFound .audio, fs, []⟩) ∧
    (∀ fs₁ : List String, missingSources r = false →
      resolveOne d fs r.audio_base64 r.audio (narrationFile uid) .audio = (none, fs₁) →
      truthy r.music_base64 = false → truthy r.music = true →
      (r.music.getD "") ∉ fs₁ →
      mix_audio d fl nd md fs r uid = ⟨.fileNotFound .music, fs₁, []⟩) := by
  constructor
  · intro hm hab haf hin
    exact mix_audio_of_err (resolveSources_audio_err hm
      (resolveOne_file_missing hab haf hin))
  · intro fs₁ hm h1 hmb hmf hin
    exact mix_audio_of_err ((resolveSources_music hm h1).trans
      (resolveOne_file_missing hmb hmf hin))

/-- Witness for `fileNotFound_resolution`: an `audio` filename that is not
in the asset area (with no `audio_base64`) gives 404, untouched directory,
and no toolkit invocations. -/
theorem fileNotFound_resolution_witness :
    mix_audio (fun _ => true) (fun _ => false) 1 100 ["m.mp3"]
      { audio := some "ghost.mp3", music_base64 := some "QQ==" } "u" =
      ⟨.fileNotFound .audio, ["m.mp3"], []⟩ :=
  (fileNotFound_resolution (fun _ => true) (fun _ => false) 1 100 ["m.mp3"]
    { audio := some "ghost.mp3", music_base64 := some "QQ==" } "u").1
    (by decide) (by decide) (by decide) (by decide)

/-- C10 (confirmed): when both sources carry valid inline base64 data, the
handler's entire outcome is independent of the `audio` / `music` filename
fields — they are never looked up — and the response is never a 404. -/
theorem base64_precedence (d : String → Bool) (fl : Stage → Bool)
    (nd md : ℚ) (fs : List String) (r : AudioMixRequest) (uid : String)
    (a' m' : Option String)
    (hab : truthy r.audio_base64 = true)
    (hmb : truthy r.music_base64 = true)
    (hda : d (extract_base64_data (r.audio_base64.getD "")) = true)
    (hdm : d (extract_base64_data (r.music_base64.getD "")) = true) :
    mix_audio d fl nd md fs r uid =
      mix_audio d fl nd md fs { r with audio := a', music := m' } uid ∧
      ∀ s, (mix_audio d fl nd md fs r uid).resp ≠ .fileNotFound s := by
  have hm : missingSources r = false := by simp [missingSources, hab, hmb]
  have hm2 : missingSources { r with audio := a', music := m' } = false := by
    simp [missingSources, hab, hmb]
  have h1 : resolveSources d fs r uid =
      (none, musicFile uid :: (narrationFile uid :: fs)) :=
    (resolveSources_music hm (resolveOne_b64_ok hab hda)).trans
      (resolveOne_b64_ok hmb hdm)
  have h2 : resolveSources d fs { r with audio := a', music := m' } uid =
      (none, musicFile uid :: (narrationFile uid :: fs)) :=
    (resolveSources_music hm2 (resolveOne_b64_ok hab hda)).trans
      (resolveOne_b64_ok hmb hdm)
  constructor
  · rw [mix_audio_of_ok h1, mix_audio_of_ok h2]
    have hp : pipelinePlan nd md { r with audio := a', music := m' } uid =
        pipelinePlan nd md r uid := rfl
    rw [hp]
  · intro s
    rw [mix_audio_of_ok h1]
    rcases mixResolved_resp_shape fl (pipelinePlan nd md r uid)
      (musicFile uid :: (narrationFile uid :: fs)) uid with ⟨os, h⟩ | h <;>
      rw [h] <;> simp

/-- Witness for `base64_precedence`: nonexistent filenames in both fields
alongside valid base64 payloads change nothing and cause no 404. -/
theorem base64_precedence_witness :
    mix_audio (fun _ => true) (fun _ => false) 1 100 ["m.mp3"]
      { audio := some "ghost.mp3", audio_base64 := some "QQ==",
        music := some "ghost2.mp3", music_base64 := some "UUE=" } "u" =
      mix_audio (fun _ => true) (fun _ => false) 1 100 ["m.mp3"]
        { audio := none, audio_base64 := some "QQ==",
          music := none, music_base64 := some "UUE=" } "u" ∧
    ∀ s, (mix_audio (fun _ => true) (fun _ => false) 1 100 ["m.mp3"]
      { audio := some "ghost.mp3", audio_base64 := some "QQ==",
        music := some "ghost2.mp3", music_base64 := some "UUE=" } "u").resp ≠
      .fileNotFound s :=
  base64_precedence (fun _ => true) (fun _ => false) 1 100 ["m.mp3"]
    { audio := some "ghost.mp3", audio_base64 := some "QQ==",
      music := some "ghost2.mp3", music_base64 := some "UUE=" } "u" none none
    (by decide) (by decide) (by decide) (by decide)

/-- `split` groups: splitting `pre ++ "," ++ rest` with a comma-free `pre`
yields `pre` followed by the split of `rest`. -/
theorem pySplit_append (pre post : List Char) (h : ',' ∉ pre) :
    pySplit ',' (pre ++ ',' :: post) = pre :: pySplit ',' post := by
  induction pre with
  | nil => simp [pySplit]
  | cons c cs ih =>
    have hc : ¬ c = ',' := by rintro rfl; exact h (List.mem_cons_self _ _)
    have hcs : ',' ∉ cs := fun hx => h (List.mem_cons_of_mem _ hx)
    rw [List.cons_append]
    simp only [pySplit, if_neg hc, ih hcs]

/-- Splitting a comma-free list yields that single group. -/
theorem pySplit_no_sep (l : List Char) (h : ',' ∉ l) : pySplit ',' l = [l] := by
  induction l with
  | nil => rfl
  | cons c cs ih =>
    have hc : ¬ c = ',' := by rintro rfl; exact h (List.mem_cons_self _ _)
    have hcs : ',' ∉ cs := fun hx => h (List.mem_cons_of_mem _ hx)
    simp only [pySplit, if_neg hc, ih hcs]

/-- Stripping through the first comma of `pre ++ "," ++ post` with `pre`
comma-free leaves `post`. -/
theorem afterFirstComma_append (pre post : List Char) (h : ',' ∉ pre) :
    afterFirstComma (pre ++ ',' :: post) = post := by
  induction pre with
  | nil => simp [afterFirstComma]
  | cons c cs ih =>
    have hc : ¬ c = ',' := by rintro rfl; exact h (List.mem_cons_self _ _)
    have hcs : ',' ∉ cs := fun hx => h (List.mem_cons_of_mem _ hx)
    rw [List.cons_append]
    simp only [afterFirstComma, if_neg hc]
    exact ih hcs

/-- C9 counterexample: on an input with two commas the code keeps only the
segment between the first and second commas (`"a,b,c"` gives `"b"`),
whereas stripping everything up to and including the first comma would
keep `"b,c"`. -/
theorem base64_comma_strip_counterexample :
    extract_base64_data "a,b,c" = "b" ∧
      spec_extract_base64_data "a,b,c" = "b,c" ∧ ("b" : String) ≠ "b,c" :=
  ⟨by decide, by decide, by decide⟩

/-- C9 (corrected): base64 inputs may be raw (no comma: used as-is) or
data-URI form; with a comma present, the data decoded is the segment
between the first and the second commas — for a standard single-comma data
URI this coincides with everything after the first comma — and a payload
whose extracted data part fails to decode is answered 400. -/
theorem extract_base64_data_spec :
    (∀ s : String, ',' ∉ s.data → extract_base64_data s = s) ∧
    (∀ pre post : List Char, ',' ∉ pre → ',' ∉ post →
      extract_base64_data ⟨pre ++ ',' :: post⟩ = ⟨post⟩ ∧
        spec_extract_base64_data ⟨pre ++ ',' :: post⟩ = ⟨post⟩) ∧
    (∀ (d : String → Bool) (fl : Stage → Bool) (nd md : ℚ) (fs : List String)
        (r : AudioMixRequest) (uid : String),
      missingSources r = false → truthy r.audio_base64 = true →
      d (extract_base64_data (r.audio_base64.getD "")) = false →
      mix_audio d fl nd md fs r uid = ⟨.invalidBase64 .audio, fs, []⟩) := by
  refine ⟨?_, ?_, ?_⟩
  · intro s hs
    rw [extract_base64_data, if_neg hs]
  · intro pre post hpre hpost
    have hmem : ',' ∈ pre ++ ',' :: post :=
      List.mem_append_right _ (List.mem_cons_self _ _)
    constructor
    · rw [extract_base64_data, if_pos hmem]
      show (⟨((pySplit ',' (pre ++ ',' :: post)).get? 1).getD []⟩ : String) = ⟨post⟩
      rw [pySplit_append pre post hpre, pySplit_no_sep post hpost]
      rfl
    · rw [spec_extract_base64_data, if_pos hmem]
      show (⟨afterFirstComma (pre ++ ',' :: post)⟩ : String) = ⟨post⟩
      rw [afterFirstComma_append pre post hpre]
  · intro d fl nd md fs r uid hm hab hd
    exact mix_audio_of_err (resolveSources_audio_err hm (resolveOne_b64_bad hab hd))

/-- Witness for `extract_base64_data_spec`: a raw payload is untouched, a
standard data URI is stripped to its payload by both readings, and an
undecodable payload is answered 400 before any toolkit work. -/
theorem extract_base64_data_spec_witness :
    extract_base64_data "QUJD" = "QUJD" ∧
      extract_base64_data "data:audio/mp3;base64,QUJD" = "QUJD" ∧
      spec_extract_base64_data "data:audio/mp3;base64,QUJD" = "QUJD" ∧
      mix_audio (fun _ => false) (fun _ => false) 1 100 ["m.mp3"]
        { audio_base64 := some "bad", music := some "m.mp3" } "u" =
        ⟨.invalidBase64 .audio, ["m.mp3"], []⟩ := by
  have h2 := (extract_base64_data_spec).2.1 "data:audio/mp3;base64".data
    "QUJD".data (by decide) (by decide)
  have e1 : (⟨"data:audio/mp3;base64".data ++ ',' :: "QUJD".data⟩ : String) =
      "data:audio/mp3;base64,QUJD" := by decide
  have e2 : (⟨"QUJD".data⟩ : String) = "QUJD" := by decide
  rw [e1, e2] at h2
  refine ⟨(extract_base64_data_spec).1 "QUJD" (by decide), h2.1, h2.2, ?_⟩
  exact (extract_base64_data_spec).2.2 (fun _ => false) (fun _ => false) 1 100
    ["m.mp3"] _ "u" (by decide) (by decide) rfl

/-- Deleting a list of paths distributes over directory concatenation. -/
theorem removeFiles_append (names l₁ l₂ : List String) :
    removeFiles names (l₁ ++ l₂) = removeFiles names l₁ ++ removeFiles names l₂ :=
  List.filter_append l₁ l₂

/-- Deleting removes everything that is listed. -/
theorem removeFiles_eq_nil (names l : List String) (h : ∀ x ∈ l, x ∈ names) :
    removeFiles names l = [] := by
  rw [removeFiles, List.filter_eq_nil_iff]
  intro a ha
  simp [h a ha]

/-- Deleting touches nothing that is not listed. -/
theorem removeFiles_eq_self (names l : List String) (h : ∀ x ∈ l, x ∉ names) :
    removeFiles names l = l := by
  rw [removeFiles, List.filter_eq_self]
  intro a ha
  simpa using h a ha

/-- Cleanup is idempotent: deleting already-deleted files changes nothing
(and, in the model, never fails). -/
theorem removeFiles_idem (names l : List String) :
    removeFiles names (removeFiles names l) = removeFiles names l := by
  apply removeFiles_eq_self
  intro x hx
  have hmem := List.mem_filter.mp hx
  simpa using hmem.2

/-- On a failed stage, the stage that is reported did fail, was invoked,
and the directory has gained only files created by the listed stages. -/
theorem runStages_error_spec (fl : Stage → Bool) (l : List (Stage × List String))
    (st st' : PipeState) (s : Stage)
    (h : runStages fl l st = .error (s, st')) :
    fl s = true ∧ s ∈ st'.invoked ∧
      ∃ pre : List String, st'.fs = pre ++ st.fs ∧
        ∀ x ∈ pre, ∃ p ∈ l, x ∈ p.2 := by
  induction l generalizing st with
  | nil => simp [runStages] at h
  | cons hd tl ih =>
    obtain ⟨s₀, creates⟩ := hd
    simp only [runStages] at h
    by_cases hf : fl s₀ = true
    · rw [if_pos hf] at h
      cases h
      exact ⟨hf, List.mem_append_right _ (List.mem_cons_self _ _),
        [], rfl, by simp⟩
    · rw [if_neg hf] at h
      obtain ⟨h1, h2, pre, hfs, hmem⟩ := ih _ h
      refine ⟨h1, h2, pre ++ creates, ?_, ?_⟩
      · rw [hfs, List.append_assoc]
      · intro x hx
        rcases List.mem_append.mp hx with hx | hx
        · obtain ⟨p, hp, hxp⟩ := hmem x hx
          exact ⟨p, List.mem_cons_of_mem _ hp, hxp⟩
        · exact ⟨(s₀, creates), List.mem_cons_self _ _, hx⟩

/-- Every file a pipeline stage can create is on the error-cleanup list. -/
theorem stage_files_in_cleanup (uid : String) (p : Stage × List String)
    (hp : p ∈ phase1Stages ∨ p ∈ loopStages uid ∨ p ∈ tailStages uid) :
    ∀ x ∈ p.2, x ∈ errorCleanupList uid := by
  intro x hx
  rcases hp with hp | hp | hp <;>
    · fin_cases hp <;> simp_all [errorCleanupList]

/-- An error from source resolution is one of the gate, base64 or
not-found responses — never a processing error. -/
theorem resolveOne_err_shape (d : String → Bool) (fs : List String)
    (b64 fileRef : Option String) (t : String) (tag : Src)
    (e : Response) (fs₁ : List String)
    (h : resolveOne d fs b64 fileRef t tag = (some e, fs₁)) :
    (e = .invalidBase64 tag ∨ e = .fileNotFound tag) ∧ fs₁ = fs := by
  unfold resolveOne at h
  split_ifs at h <;> simp_all

/-- Resolution never produces a processing error, and only ever adds the
narration and music target files to the directory. -/
theorem resolveSources_err_shape (d : String → Bool) (fs : List String)
    (r : AudioMixRequest) (uid : String) (e : Response) (fs₁ : List String)
    (h : resolveSources d fs r uid = (some e, fs₁)) :
    ∀ os, e ≠ .processingError os := by
  intro os he
  subst he
  by_cases hm : missingSources r = true
  · rw [resolveSources_missing hm] at h
    simp at h
  · have hm' : missingSources r = false := by simpa using hm
    rcases ha : resolveOne d fs r.audio_base64 r.audio (narrationFile uid) .audio
      with ⟨o₁, fsa⟩
    cases o₁ with
    | some e₁ =>
      rw [resolveSources_audio_err hm' ha, Prod.mk.injEq] at h
      obtain ⟨h', -⟩ := h
      have h'' : e₁ = .processingError os := Option.some.inj h'
      rcases (resolveOne_err_shape _ _ _ _ _ _ _ _ ha).1 with hs | hs <;>
        rw [h''] at hs <;> cases hs
    | none =>
      rw [resolveSources_music hm' ha] at h
      rcases (resolveOne_err_shape _ _ _ _ _ _ _ _ h).1 with hs | hs <;> cases hs

/-- Successful resolution only adds the generated narration/music files. -/
theorem resolveSources_ok_fs (d : String → Bool) (fs : List String)
    (r : AudioMixRequest) (uid : String) (fs₁ : List String)
    (h : resolveSources d fs r uid = (none, fs₁)) :
    ∃ pre : List String, fs₁ = pre ++ fs ∧
      ∀ x ∈ pre, x ∈ errorCleanupList uid := by
  have hone : ∀ (fs' fs'' : List String) (b64 fr : Option String) (t : String) (tag : Src),
      resolveOne d fs' b64 fr t tag = (none, fs'') → fs'' = fs' ∨ fs'' = t :: fs' := by
    intro fs' fs'' b64 fr t tag h1
    unfold resolveOne at h1
    split_ifs at h1 <;> simp_all
  by_cases hm : missingSources r = true
  · rw [resolveSources_missing hm] at h
    simp at h
  · have hm' : missingSources r = false := by simpa using hm
    rcases ha : resolveOne d fs r.audio_base64 r.audio (narrationFile uid) .audio
      with ⟨o₁, fsa⟩
    cases o₁ with
    | some e₁ =>
      rw [resolveSources_audio_err hm' ha] at h
      simp at h
    | none =>
      rw [resolveSources_music hm' ha] at h
      rcases hone _ _ _ _ _ _ ha with rfl | rfl <;>
        rcases hone _ _ _ _ _ _ h with rfl | rfl
      · exact ⟨[], rfl, by simp⟩
      · exact ⟨[musicFile uid], rfl, by simp [errorCleanupList]⟩
      · exact ⟨[narrationFile uid], rfl, by simp [errorCleanupList]⟩
      · exact ⟨[musicFile uid, narrationFile uid], rfl, by simp [errorCleanupList]⟩

/-- Running the error cleanup over a directory that gained only
cleanup-listed files restores the original directory exactly. -/
theorem cleanup_restores (uid : String) (fs pre₁ pre₂ : List String)
    (hfresh : ∀ n ∈ errorCleanupList uid, n ∉ fs)
    (h1 : ∀ x ∈ pre₁, x ∈ errorCleanupList uid)
    (h2 : ∀ x ∈ pre₂, x ∈ errorCleanupList uid) :
    removeFiles (errorCleanupList uid) (pre₂ ++ (pre₁ ++ fs)) = fs := by
  rw [removeFiles_append, removeFiles_append,
    removeFiles_eq_nil _ pre₂ h2, removeFiles_eq_nil _ pre₁ h1,
    removeFiles_eq_self _ fs (fun x hx hmem => hfresh x hmem hx)]
  simp

/-- Any stage list produced by `pipelinePlan` creates only files that the
error cleanup removes. -/
theorem pipelinePlan_files_in_cleanup (nd md : ℚ) (r : AudioMixRequest)
    (uid : String) (stages : List (Stage × List String))
    (hpo : pipelinePlan nd md r uid = some stages) :
    ∀ p ∈ stages, ∀ x ∈ p.2, x ∈ errorCleanupList uid := by
  intro p hp x hx
  by_cases hlt : md < (r.wait_music : ℚ) + nd + (r.fade_end_at : ℚ) + fadeout_duration
  · by_cases h0 : md = 0
    · rw [pipelinePlan_zero h0 hlt] at hpo
      exact Option.noConfusion hpo
    · have hst : stages = phase1Stages ++ (loopStages uid ++ tailStages uid) :=
        (Option.some.inj ((pipelinePlan_of_lt h0 hlt).symm.trans hpo)).symm
      subst hst
      rcases List.mem_append.mp hp with h1 | h1
      · exact stage_files_in_cleanup uid p (Or.inl h1) x hx
      · rcases List.mem_append.mp h1 with h2 | h2
        · exact stage_files_in_cleanup uid p (Or.inr (Or.inl h2)) x hx
        · exact stage_files_in_cleanup uid p (Or.inr (Or.inr h2)) x hx
  · have hst : stages = phase1Stages ++ tailStages uid :=
      (Option.some.inj ((pipelinePlan_of_ge hlt).symm.trans hpo)).symm
    subst hst
    rcases List.mem_append.mp hp with h1 | h1
    · exact stage_files_in_cleanup uid p (Or.inl h1) x hx
    · exact stage_files_in_cleanup uid p (Or.inr (Or.inr h1)) x hx

/-- C8 (confirmed): whenever the handler answers a 500 naming a toolkit
stage, that stage did fail and was invoked, the temp directory is restored
exactly to its pre-request contents (every intermediate file produced so
far is deleted), no output file is registered, and the deletion routine is
idempotent (deleting an already-deleted file changes nothing and cannot
raise). -/
theorem failure_cleanup (d : String → Bool) (fl : Stage → Bool)
    (nd md : ℚ) (fs : List String) (r : AudioMixRequest) (uid : String)
    (s : Stage)
    (hfresh : ∀ n ∈ errorCleanupList uid, n ∉ fs)
    (herr : (mix_audio d fl nd md fs r uid).resp = .processingError (some s)) :
    (mix_audio d fl nd md fs r uid).fs = fs ∧
      fl s = true ∧ s ∈ (mix_audio d fl nd md fs r uid).invoked ∧
      outputFile uid ∉ (mix_audio d fl nd md fs r uid).fs ∧
      (∀ names l : List String,
        removeFiles names (removeFiles names l) = removeFiles names l) := by
  rcases hres : resolveSources d fs r uid with ⟨o, fs₁⟩
  cases o with
  | some e =>
    rw [mix_audio_of_err hres] at herr
    exact absurd herr (resolveSources_err_shape d fs r uid e fs₁ hres (some s))
  | none =>
    obtain ⟨pre₁, rfl, hpre₁⟩ := resolveSources_ok_fs d fs r uid fs₁ hres
    rw [mix_audio_of_ok hres] at herr ⊢
    cases hpo : pipelinePlan nd md r uid with
    | none =>
      rw [hpo] at herr
      rcases hrun : runStages fl phase1Stages ⟨pre₁ ++ fs, []⟩ with ⟨s₀, st⟩ | st
      · have hmr : mixResolved fl none (pre₁ ++ fs) uid =
            ⟨.processingError (some s₀), removeFiles (errorCleanupList uid) st.fs,
              st.invoked⟩ := by
          simp [mixResolved, hrun]
        rw [hmr] at herr ⊢
        have hs : s₀ = s := by simpa using herr
        subst hs
        obtain ⟨hfl, hinv, pre₂, hfs, hmem₂⟩ := runStages_error_spec fl _ _ _ _ hrun
        have hclean : removeFiles (errorCleanupList uid) st.fs = fs := by
          rw [hfs]
          exact cleanup_restores uid fs pre₁ pre₂ hfresh hpre₁
            (fun x hx => by
              obtain ⟨p, hp, hxp⟩ := hmem₂ x hx
              exact stage_files_in_cleanup uid p (Or.inl hp) x hxp)
        refine ⟨hclean, hfl, hinv, ?_, removeFiles_idem⟩
        rw [show (⟨Response.processingError (some s₀),
          removeFiles (errorCleanupList uid) st.fs, st.invoked⟩ : HandlerResult).fs =
            removeFiles (errorCleanupList uid) st.fs from rfl, hclean]
        exact hfresh _ (by simp [errorCleanupList])
      · have hmr : mixResolved fl none (pre₁ ++ fs) uid =
            ⟨.processingError none, removeFiles (errorCleanupList uid) st.fs,
              st.invoked⟩ := by
          simp [mixResolved, hrun]
        rw [hmr] at herr
        simp at herr
    | some stages =>
      rw [hpo] at herr
      rcases hrun : runStages fl stages ⟨pre₁ ++ fs, []⟩ with ⟨s₀, st⟩ | st
      · have hmr : mixResolved fl (some stages) (pre₁ ++ fs) uid =
            ⟨.processingError (some s₀), removeFiles (errorCleanupList uid) st.fs,
              st.invoked⟩ := by
          simp [mixResolved, hrun]
        rw [hmr] at herr ⊢
        have hs : s₀ = s := by simpa using herr
        subst hs
        obtain ⟨hfl, hinv, pre₂, hfs, hmem₂⟩ := runStages_error_spec fl _ _ _ _ hrun
        have hclean : removeFiles (errorCleanupList uid) st.fs = fs := by
          rw [hfs]
          exact cleanup_restores uid fs pre₁ pre₂ hfresh hpre₁
            (fun x hx => by
              obtain ⟨p, hp, hxp⟩ := hmem₂ x hx
              exact pipelinePlan_files_in_cleanup nd md r uid stages hpo p hp x hxp)
        refine ⟨hclean, hfl, hinv, ?_, removeFiles_idem⟩
        rw [show (⟨Response.processingError (some s₀),
          removeFiles (errorCleanupList uid) st.fs, st.invoked⟩ : HandlerResult).fs =
            removeFiles (errorCleanupList uid) st.fs from rfl, hclean]
        exact hfresh _ (by simp [errorCleanupList])
      · have hmr : mixResolved fl (some stages) (pre₁ ++ fs) uid =
            ⟨.success, removeFiles (successCleanupList uid) st.fs, st.invoked⟩ := by
          simp [mixResolved, hrun]
        rw [hmr] at herr
        simp at herr

/-- Witness for `failure_cleanup`: spec scenario 5 — the toolkit fails at
the fadeout stage; the temp directory is restored, the failed stage was
invoked and is named, and no output is registered. -/
theorem failure_cleanup_witness :
    (mix_audio (fun _ => true) (fun st => decide (st = Stage.applyFadeout)) 1 100
        ["m.mp3"] { audio_base64 := some "QQ==", music_base64 := some "UUE=" } "u").fs =
      ["m.mp3"] ∧
    (fun st => decide (st = Stage.applyFadeout)) Stage.applyFadeout = true ∧
    Stage.applyFadeout ∈ (mix_audio (fun _ => true)
        (fun st => decide (st = Stage.applyFadeout)) 1 100 ["m.mp3"]
        { audio_base64 := some "QQ==", music_base64 := some "UUE=" } "u").invoked ∧
    outputFile "u" ∉ (mix_audio (fun _ => true)
        (fun st => decide (st = Stage.applyFadeout)) 1 100 ["m.mp3"]
        { audio_base64 := some "QQ==", music_base64 := some "UUE=" } "u").fs ∧
    (∀ names l : List String,
      removeFiles names (removeFiles names l) = removeFiles names l) := by
  apply failure_cleanup
  · decide
  · have hres : resolveSources (fun _ => true) ["m.mp3"]
        { audio_base64 := some "QQ==", music_base64 := some "UUE=" } "u" =
        (none, [musicFile "u", narrationFile "u", "m.mp3"]) := by decide
    rw [mix_audio_of_ok hres,
      pipelinePlan_of_ge (by push_cast; norm_num [fadeout_duration])]
    decide

end VideoToAudio
